import Mathlib

/-!
Verification of the environment-detection core of `scripts/env-detect.py`
(class `EnvironmentDetector`).

The program is a battery of independent probes over a project directory:
filesystem globs, root-file existence checks, environment-variable reads and
external command invocations, whose results are assembled into nested
dictionaries and rendered either as a JSON document or as console text.

Shallow embedding: every external observation the detector can make
(the result of each recursive glob, which names exist at the project root,
the value of `VIRTUAL_ENV`, the captured stdout of each subprocess, whether a
command can be invoked at all) is a field of the `Env` structure below.
`Option String` models a captured stdout where `Option.none` means the
invocation raised (binary missing); `subprocess.run` without `check=True`
does not raise on a nonzero exit, so a present-but-failing binary is
`some stdout`.  Python values stored in the result dictionaries are modelled
by `PyVal`, covering exactly the value shapes this program constructs:
scalars, lists of strings, and lists of `pathlib.Path` objects (the latter
matter because `json.dumps` cannot serialize them).
-/

namespace EnvDetect

/-- Python values that `EnvironmentDetector` stores in its result records:
`None`, booleans, ints, strings, `pathlib.Path` objects, lists of strings and
lists of `Path` objects. -/
inductive PyVal where
  | none : PyVal
  | bool (b : Bool) : PyVal
  | int (n : Int) : PyVal
  | str (s : String) : PyVal
  | path (p : String) : PyVal
  | strlist (xs : List String) : PyVal
  | pathlist (xs : List String) : PyVal
deriving DecidableEq

/-- A Python dict with string keys in insertion order (a finding record). -/
abbrev Record := List (String × PyVal)

/-- Dependency and devDependency key names of a successfully parsed
`package.json` (only key membership is ever inspected by the detector). -/
structure PkgJson where
  dependencies : List String
  devDependencies : List String
deriving DecidableEq

/-- Everything `EnvironmentDetector` observes from the outside world during
one run: glob results, root-entry existence, the process environment and the
outcome of each external command. -/
structure Env where
  /-- The resolved project path (string form, no trailing slash). -/
  projectPath : String
  /-- Relative paths returned by `rglob(\x22*.py\x22)`. -/
  pyFiles : List String
  /-- Relative paths returned by `rglob(\x22*.ts\x22)`. -/
  tsFiles : List String
  /-- Relative paths returned by `rglob(\x22*.js\x22)`. -/
  jsFiles : List String
  /-- Relative paths returned by `rglob(\x22*.go\x22)`. -/
  goFiles : List String
  /-- Relative paths returned by `rglob(\x22*.rs\x22)`. -/
  rsFiles : List String
  /-- Names (relative paths) for which `(project_path / name).exists()` holds. -/
  rootFiles : List String
  /-- Relative paths matched by the docker glob patterns `Dockerfile*`,
  `docker-compose*.yml`, `docker-compose*.yaml`, in the order the loop
  collects them. -/
  dockerMatches : List String
  /-- `os.environ.get(\x22VIRTUAL_ENV\x22)`: `Option.none` when unset. -/
  virtualEnvVar : Option String
  /-- Result of opening and JSON-parsing `package.json`: `Option.none` when
  opening or parsing raises. -/
  packageJsonParse : Option PkgJson
  /-- stdout of `sys.executable --version`; `Option.none` when the call raises. -/
  pythonVersionCmd : Option String
  /-- stdout of `node --version`; `Option.none` when the call raises. -/
  nodeVersionCmd : Option String
  /-- stdout of `go version`; `Option.none` when the call raises. -/
  goVersionCmd : Option String
  /-- stdout of `rustc --version`; `Option.none` when the call raises. -/
  rustVersionCmd : Option String
  /-- stdout of `git branch --show-current`; `Option.none` when it raises. -/
  gitBranchCmd : Option String
  /-- stdout of `git remote get-url origin`; `Option.none` when it raises. -/
  gitRemoteCmd : Option String
  /-- stdout of `git status --porcelain`; `Option.none` when it raises. -/
  gitStatusCmd : Option String
  /-- Whether `subprocess.run([c, \x22--version\x22], check=True)` succeeds,
  i.e. the outcome of `_command_exists(c)` for each command name. -/
  command_exists : String → Bool
  /-- stdout of `npm audit --help`; `Option.none` when the call raises. -/
  npmAuditCmd : Option String

/-- Wrap a Python `Optional[str]` as a stored dict value. -/
def optStr : Option String → PyVal
  | Option.none => PyVal.none
  | some s => PyVal.str s

/-- Python truthiness of a stored value (`if not details[...]`). -/
def truthy : PyVal → Bool
  | PyVal.none => false
  | PyVal.bool b => b
  | PyVal.int n => !(n == 0)
  | PyVal.str s => !(s == "")
  | PyVal.path _ => true
  | PyVal.strlist xs => !xs.isEmpty
  | PyVal.pathlist xs => !xs.isEmpty

/-- Dict lookup with Python `dict.get(k)` default of `None`. -/
def rget (r : Record) (k : String) : PyVal :=
  (List.lookup k r).getD PyVal.none

/-- Key list of an association list (Python dict key order). -/
def keys {α : Type} (l : List (String × α)) : List String :=
  l.map Prod.fst

/-- Whether the first character list begins with the second. -/
def beginsWith : List Char → List Char → Bool
  | _, [] => true
  | [], _ :: _ => false
  | c :: cs, d :: ds => c == d && beginsWith cs ds

/-- Whether some suffix of the first character list begins with the second. -/
def hasSub (needle : List Char) : List Char → Bool
  | [] => needle.isEmpty
  | c :: cs => beginsWith (c :: cs) needle || hasSub needle cs

/-- Final component of a relative path (`Path.name`). -/
def baseName (p : String) : String :=
  String.mk ((p.data.reverse.takeWhile (fun c => c != '/')).reverse)

/-- Python substring test `needle in s`. -/
def strContains (s needle : String) : Bool :=
  hasSub needle.data s.data

/-- Python `s.startswith(pre)`. -/
def strStartsWith (s pre : String) : Bool :=
  beginsWith s.data pre.data

/-- Embedding of `_get_python_version`: stripped stdout, or `None` when the
invocation raised. -/
def get_python_version (e : Env) : Option String :=
  e.pythonVersionCmd.map String.trim

/-- Embedding of `_get_node_version`. -/
def get_node_version (e : Env) : Option String :=
  e.nodeVersionCmd.map String.trim

/-- Embedding of `_get_go_version`. -/
def get_go_version (e : Env) : Option String :=
  e.goVersionCmd.map String.trim

/-- Embedding of `_get_rust_version`. -/
def get_rust_version (e : Env) : Option String :=
  e.rustVersionCmd.map String.trim

/-- Embedding of `_get_git_branch`. -/
def get_git_branch (e : Env) : Option String :=
  e.gitBranchCmd.map String.trim

/-- Embedding of `_get_git_remote`. -/
def get_git_remote (e : Env) : Option String :=
  e.gitRemoteCmd.map String.trim

/-- Embedding of `_has_uncommitted_changes`: `bool(stdout.strip())`, `False`
when the invocation raised. -/
def has_uncommitted_changes (e : Env) : Bool :=
  match e.gitStatusCmd with
  | Option.none => false
  | some s => !(s.trim == "")

/-- The `venv` / `.venv` directory probes of `_detect_python_env` (the two
trailing existence checks of that method). -/
def venv_dir_fallback (e : Env) : Option String :=
  if e.rootFiles.contains "venv" then some (e.projectPath ++ "/venv")
  else if e.rootFiles.contains ".venv" then some (e.projectPath ++ "/.venv")
  else Option.none

/-- Embedding of `_detect_python_env`: a truthy `VIRTUAL_ENV` wins, otherwise
the directory probes run, otherwise `None`. -/
def detect_python_env (e : Env) : Option String :=
  match e.virtualEnvVar with
  | some v => if v == "" then venv_dir_fallback e else some v
  | Option.none => venv_dir_fallback e

/-- Embedding of `_find_requirements`: first existing name among the fixed
list, else `None`. -/
def find_requirements (e : Env) : Option String :=
  if e.rootFiles.contains "requirements.txt" then some "requirements.txt"
  else if e.rootFiles.contains "pyproject.toml" then some "pyproject.toml"
  else if e.rootFiles.contains "setup.py" then some "setup.py"
  else if e.rootFiles.contains "Pipfile" then some "Pipfile"
  else Option.none

/-- Embedding of `_detect_python_package_manager`. -/
def detect_python_package_manager (e : Env) : String :=
  if e.rootFiles.contains "Pipfile" then "pipenv"
  else if e.rootFiles.contains "pyproject.toml" then "poetry/pip"
  else if e.rootFiles.contains "requirements.txt" then "pip"
  else "unknown"

/-- Embedding of `_detect_node_package_manager`. -/
def detect_node_package_manager (e : Env) : String :=
  if e.rootFiles.contains "yarn.lock" then "yarn"
  else if e.rootFiles.contains "pnpm-lock.yaml" then "pnpm"
  else if e.rootFiles.contains "package-lock.json" then "npm"
  else "unknown"

/-- Embedding of `_detect_js_framework`: requires `package.json` to exist and
parse; framework keys are probed in the merged dependency/devDependency key
set in the source's fixed order. -/
def detect_js_framework (e : Env) : Option String :=
  if !(e.rootFiles.contains "package.json") then Option.none
  else
    match e.packageJsonParse with
    | Option.none => Option.none
    | some d =>
      let deps := d.dependencies ++ d.devDependencies
      if deps.contains "react" then some "react"
      else if deps.contains "vue" then some "vue"
      else if deps.contains "@angular/core" then some "angular"
      else if deps.contains "svelte" then some "svelte"
      else Option.none

/-- Embedding of `detect_languages`: the four conditional blocks, in source
order, each contributing one keyed finding record. -/
def detect_languages (e : Env) : List (String × Record) :=
  (if !e.pyFiles.isEmpty then
    [("python", [
      ("files_count", PyVal.int e.pyFiles.length),
      ("current_version", optStr (get_python_version e)),
      ("virtual_env", optStr (detect_python_env e)),
      ("requirements", optStr (find_requirements e)),
      ("package_manager", PyVal.str (detect_python_package_manager e))])]
   else [])
  ++ (if e.rootFiles.contains "package.json" || !e.tsFiles.isEmpty || !e.jsFiles.isEmpty then
    [("nodejs", [
      ("files_count", PyVal.int (e.tsFiles ++ e.jsFiles).length),
      ("current_version", optStr (get_node_version e)),
      ("package_json", PyVal.bool (e.rootFiles.contains "package.json")),
      ("package_manager", PyVal.str (detect_node_package_manager e)),
      ("framework", optStr (detect_js_framework e))])]
   else [])
  ++ (if !e.goFiles.isEmpty || e.rootFiles.contains "go.mod" then
    [("go", [
      ("files_count", PyVal.int e.goFiles.length),
      ("current_version", optStr (get_go_version e)),
      ("go_mod", PyVal.bool (e.rootFiles.contains "go.mod"))])]
   else [])
  ++ (if e.rootFiles.contains "Cargo.toml" || !e.rsFiles.isEmpty then
    [("rust", [
      ("files_count", PyVal.int e.rsFiles.length),
      ("current_version", optStr (get_rust_version e)),
      ("cargo_toml", PyVal.bool (e.rootFiles.contains "Cargo.toml"))])]
   else [])

/-- The fixed CI configuration paths probed by `detect_infrastructure`. -/
def ci_patterns : List String :=
  [".github/workflows", ".gitlab-ci.yml", "Jenkinsfile", ".travis.yml"]

/-- Embedding of `detect_infrastructure`: docker file globs bucketed by name
(the buckets keep raw `Path` objects, only `files` is stringified), a git
block behind a `.git` existence check, and the fixed CI path probes. -/
def detect_infrastructure (e : Env) : List (String × Record) :=
  (if !e.dockerMatches.isEmpty then
    [("docker", [
      ("files", PyVal.strlist e.dockerMatches),
      ("compose_files",
        PyVal.pathlist (e.dockerMatches.filter (fun f => strContains (baseName f) "compose"))),
      ("dockerfiles",
        PyVal.pathlist (e.dockerMatches.filter (fun f => strStartsWith (baseName f) "Dockerfile")))])]
   else [])
  ++ (if e.rootFiles.contains ".git" then
    [("git", [
      ("current_branch", optStr (get_git_branch e)),
      ("remote_url", optStr (get_git_remote e)),
      ("uncommitted_changes", PyVal.bool (has_uncommitted_changes e))])]
   else [])
  ++ (let ci := ci_patterns.filter (fun p => e.rootFiles.contains p)
      if !ci.isEmpty then [("ci_cd", [("detected", PyVal.strlist ci)])] else [])

/-- The general containerization suggestion text. -/
def docker_suggestion_msg : String :=
  "Consider Docker for consistent development environment"

/-- Per-language suggestion rules of `suggest_environment_isolation` (the body
of its `for lang, details` loop). -/
def lang_suggestions (lang : String) (details : Record) : List String :=
  if lang == "python" then
    (if !truthy (rget details "virtual_env") then
      ["Create Python virtual environment (venv/virtualenv)"] else [])
    ++ (if !truthy (rget details "requirements") then
      ["Create requirements.txt or pyproject.toml"] else [])
    ++ ["Consider pyenv for Python version management"]
  else if lang == "nodejs" then
    (if !truthy (rget details "package_json") then ["Initialize package.json"] else [])
    ++ ["Consider nvm for Node.js version management"]
    ++ (if (match rget details "framework" with
            | PyVal.str f => f == "react" || f == "vue" || f == "angular"
            | _ => false) then
      ["Use framework-specific dev containers"] else [])
  else if lang == "go" then
    (if !truthy (rget details "go_mod") then ["Initialize go.mod"] else [])
    ++ ["Consider Go workspace for multi-module projects"]
  else if lang == "rust" then
    (if !truthy (rget details "cargo_toml") then ["Initialize Cargo.toml"] else [])
  else []

/-- Embedding of `suggest_environment_isolation`: per-language entries (kept
only when non-empty), then the general containerization entry when more than
one language was detected and no docker signal exists. -/
def suggest_environment_isolation (e : Env) : List (String × List String) :=
  let languages := detect_languages e
  let per := languages.filterMap (fun p =>
    let s := lang_suggestions p.1 p.2
    if s.isEmpty then Option.none else some (p.1, s))
  let infra := detect_infrastructure e
  if !(keys infra).contains "docker" && languages.length > 1 then
    per ++ [("general", [docker_suggestion_msg])]
  else per

/-- Embedding of `_has_npm_audit`: stdout must contain `audit`. -/
def has_npm_audit (e : Env) : Bool :=
  match e.npmAuditCmd with
  | Option.none => false
  | some out => strContains out "audit"

/-- Embedding of `check_security_tools`: the fixed six-tool dict. -/
def check_security_tools (e : Env) : List (String × Bool) :=
  [("bandit", e.command_exists "bandit"),
   ("safety", e.command_exists "safety"),
   ("npm_audit", e.command_exists "npm" && has_npm_audit e),
   ("snyk", e.command_exists "snyk"),
   ("semgrep", e.command_exists "semgrep"),
   ("gosec", e.command_exists "gosec")]

/-- Python `str()` of a stored value, as interpolated by the console
renderer's f-strings.  Lists render their elements with `repr` (quoted
strings, `PosixPath(...)` wrappers). -/
def pyStr : PyVal → String
  | PyVal.none => "None"
  | PyVal.bool true => "True"
  | PyVal.bool false => "False"
  | PyVal.int n => toString n
  | PyVal.str s => s
  | PyVal.path p => p
  | PyVal.strlist xs =>
    "[" ++ String.intercalate ", " (xs.map (fun s => "\x27" ++ s ++ "\x27")) ++ "]"
  | PyVal.pathlist xs =>
    "[" ++ String.intercalate ", " (xs.map (fun s => "PosixPath(\x27" ++ s ++ "\x27)")) ++ "]"

/-- Character walk for Python `str.title()`: a letter after a non-letter is
uppercased, a letter after a letter is lowercased. -/
def titleChars : Bool → List Char → List Char
  | _, [] => []
  | prevAlpha, c :: cs =>
    (if c.isAlpha then (if prevAlpha then c.toLower else c.toUpper) else c)
      :: titleChars c.isAlpha cs

/-- Python `str.title()`. -/
def py_title (s : String) : String := String.mk (titleChars false s.data)

/-- Rendered label of a record key: `key.replace('_', ' ').title()`. -/
def key_label (k : String) : String := py_title (k.replace "_" " ")

/-- Console lines of one language block (body of the languages loop of
`generate_report`). -/
def render_language (p : String × Record) : List String :=
  ["  " ++ p.1.toUpper ++ ":",
   "    Files: " ++ pyStr (rget p.2 "files_count")]
  ++ (if (keys p.2).contains "current_version" then
        ["    Version: " ++ pyStr (rget p.2 "current_version")] else [])
  ++ p.2.filterMap (fun kv =>
      if kv.1 == "files_count" || kv.1 == "current_version" then Option.none
      else some ("    " ++ key_label kv.1 ++ ": " ++ pyStr kv.2))

/-- Console lines of one infrastructure block. -/
def render_infra_component (c : String × Record) : List String :=
  ("  " ++ c.1.toUpper ++ ":")
    :: c.2.map (fun kv => "    " ++ key_label kv.1 ++ ": " ++ pyStr kv.2)

/-- Console lines of one suggestion category. -/
def render_suggestion (c : String × List String) : List String :=
  ("  " ++ c.1.toUpper ++ ":") :: c.2.map (fun it => "    • " ++ it)

/-- Console line for one security tool. -/
def render_security_tool (t : String × Bool) : String :=
  "  " ++ (if t.2 then "✅" else "❌") ++ " " ++ t.1

/-- The console-format report of `generate_report`, as its list of appended
lines (the returned string is their newline join). -/
def console_lines (e : Env) : List String :=
  let languages := detect_languages e
  let infra := detect_infrastructure e
  let suggestions := suggest_environment_isolation e
  let security := check_security_tools e
  ["🔍 ENVIRONMENT DETECTION REPORT",
   String.mk (List.replicate 50 '='),
   "\n📚 DETECTED LANGUAGES:"]
  ++ languages.foldr (fun p acc => render_language p ++ acc) []
  ++ (if !infra.isEmpty then
        "\n🏗️  INFRASTRUCTURE:"
          :: infra.foldr (fun c acc => render_infra_component c ++ acc) []
      else [])
  ++ (if !suggestions.isEmpty then
        "\n💡 ENVIRONMENT ISOLATION SUGGESTIONS:"
          :: suggestions.foldr (fun c acc => render_suggestion c ++ acc) []
      else [])
  ++ ("\n🛡️  SECURITY TOOLS AVAILABILITY:" :: security.map render_security_tool)

/-- Quoted JSON string (escaping of special characters inside the text is not
modelled; no claim depends on it). -/
def json_quote (s : String) : String := "\x22" ++ s ++ "\x22"

/-- `json.dumps` on one stored value: `Option.none` models the `TypeError`
raised on a `pathlib.Path` object, which is not JSON serializable. -/
def json_dumps_val : PyVal → Option String
  | PyVal.none => some "null"
  | PyVal.bool true => some "true"
  | PyVal.bool false => some "false"
  | PyVal.int n => some (toString n)
  | PyVal.str s => some (json_quote s)
  | PyVal.path _ => Option.none
  | PyVal.strlist xs =>
    some ("[" ++ String.intercalate ", " (xs.map json_quote) ++ "]")
  | PyVal.pathlist xs =>
    if xs.isEmpty then some "[]" else Option.none

/-- `json.dumps` on a finding record. -/
def json_dumps_record (r : Record) : Option String :=
  (r.mapM (fun kv => (json_dumps_val kv.2).map (fun v => json_quote kv.1 ++ ": " ++ v))).map
    (fun parts => "\x7b" ++ String.intercalate ", " parts ++ "\x7d")

/-- `json.dumps` on a dict of finding records (a report section). -/
def json_dumps_section (s : List (String × Record)) : Option String :=
  (s.mapM (fun kv => (json_dumps_record kv.2).map (fun v => json_quote kv.1 ++ ": " ++ v))).map
    (fun parts => "\x7b" ++ String.intercalate ", " parts ++ "\x7d")

/-- `json.dumps` on the suggestions section (string-list values only). -/
def json_dumps_suggestions (s : List (String × List String)) : String :=
  "\x7b" ++ String.intercalate ", "
    (s.map (fun kv => json_quote kv.1 ++ ": [" ++
      String.intercalate ", " (kv.2.map json_quote) ++ "]")) ++ "\x7d"

/-- `json.dumps` on the security-tools section (boolean values only). -/
def json_dumps_security (s : List (String × Bool)) : String :=
  "\x7b" ++ String.intercalate ", "
    (s.map (fun kv => json_quote kv.1 ++ ": " ++ (if kv.2 then "true" else "false"))) ++ "\x7d"

/-- The structured-mode branch of `generate_report`: `json.dumps` over the
four-key dict literal, raising (`Option.none`) when any stored value is not
JSON serializable.  Whitespace/indent of the serialized text is abstracted;
the key structure and the raise behaviour are faithful. -/
def json_report (e : Env) : Option String := do
  let langs ← json_dumps_section (detect_languages e)
  let infra ← json_dumps_section (detect_infrastructure e)
  let sugg := json_dumps_suggestions (suggest_environment_isolation e)
  let sec := json_dumps_security (check_security_tools e)
  pure ("\x7b" ++ json_quote "languages" ++ ": " ++ langs
    ++ ", " ++ json_quote "infrastructure" ++ ": " ++ infra
    ++ ", " ++ json_quote "suggestions" ++ ": " ++ sugg
    ++ ", " ++ json_quote "security_tools" ++ ": " ++ sec ++ "\x7d")

/-- Embedding of `generate_report`: the `json` branch serializes the four-key
dict (and can raise, modelled by `Option.none`); every other format value
falls through to the console rendering, which always succeeds. -/
def generate_report (e : Env) (format_type : String) : Option String :=
  if format_type == "json" then json_report e
  else some (String.intercalate "\n" (console_lines e))

/-- Top-level key order of the structured-report dict literal in
`generate_report`. -/
def report_keys : List String :=
  ["languages", "infrastructure", "suggestions", "security_tools"]

/-- A bare project: nothing on disk, `VIRTUAL_ENV` unset, every external
command missing. -/
def env0 : Env :=
  { projectPath := "/proj"
    pyFiles := []
    tsFiles := []
    jsFiles := []
    goFiles := []
    rsFiles := []
    rootFiles := []
    dockerMatches := []
    virtualEnvVar := Option.none
    packageJsonParse := Option.none
    pythonVersionCmd := Option.none
    nodeVersionCmd := Option.none
    goVersionCmd := Option.none
    rustVersionCmd := Option.none
    gitBranchCmd := Option.none
    gitRemoteCmd := Option.none
    gitStatusCmd := Option.none
    command_exists := fun _ => false
    npmAuditCmd := Option.none }

/-- A root whose only Python signal is a `requirements.txt` manifest. -/
def env_req_only : Env := { env0 with rootFiles := ["requirements.txt"] }

/-- A root with source files of all four languages and every external
command failing. -/
def env_all_langs : Env :=
  { env0 with pyFiles := ["app.py"], tsFiles := ["app.ts"],
              goFiles := ["main.go"], rsFiles := ["main.rs"] }

/-- A root containing a `Dockerfile` (and nothing else). -/
def env_docker : Env := { env0 with dockerMatches := ["Dockerfile"] }

/-- A root with go and rust sources only. -/
def env_go_rust : Env :=
  { env0 with goFiles := ["main.go"], rsFiles := ["lib.rs"] }

/-- A root where `yarn.lock` is the only lockfile. -/
def env_yarn : Env :=
  { env0 with rootFiles := ["yarn.lock", "package.json"], jsFiles := ["index.js"] }

/-- A root whose `package.json` lists both `react` and `vue` as
dependencies. -/
def env_react_vue : Env :=
  { env0 with rootFiles := ["package.json"],
              packageJsonParse := some { dependencies := ["react", "vue"], devDependencies := [] } }

/-- A process environment where `VIRTUAL_ENV` is set to the empty string and
the project contains a `venv` directory. -/
def env_venv_empty_var : Env :=
  { env0 with virtualEnvVar := some "", rootFiles := ["venv"], pyFiles := ["app.py"] }

/-- A process environment where `VIRTUAL_ENV` names an environment outside
the project and no `venv`/`.venv` directory exists. -/
def env_virtualenv_set : Env :=
  { env0 with virtualEnvVar := some "/envs/proj" }

/-- The ordered lockfile probe list of `_detect_node_package_manager`, stated
the way the spec describes it: a fixed ordered list of lockfile names, first
match wins.  Used only to compare against the embedded if-chain. -/
def node_lock_order : List (String × String) :=
  [("yarn.lock", "yarn"), ("pnpm-lock.yaml", "pnpm"), ("package-lock.json", "npm")]

/-- Node package manager as the spec words it: first matching lockfile of the
ordered list, `unknown` when none match. -/
def spec_node_package_manager (e : Env) : String :=
  (node_lock_order.findSome?
    (fun p => if e.rootFiles.contains p.1 then some p.2 else Option.none)).getD "unknown"

/-- The fixed framework priority order probed by `_detect_js_framework`:
dependency key probed, framework name reported. -/
def framework_priority : List (String × String) :=
  [("react", "react"), ("vue", "vue"), ("@angular/core", "angular"), ("svelte", "svelte")]

theorem lookup_append {α : Type} (k : String) (l₁ l₂ : List (String × α)) :
    List.lookup k (l₁ ++ l₂) =
      match List.lookup k l₁ with
      | some v => some v
      | Option.none => List.lookup k l₂ := by
  induction l₁ with
  | nil => simp [List.lookup]
  | cons p t ih =>
    cases p with
    | mk a b =>
      cases h : (k == a) with
      | true => simp [List.lookup, h]
      | false => simp [List.lookup, h, ih]

theorem lookup_eq_none_of_keys_ne {α : Type} (k : String) (l : List (String × α))
    (h : ∀ p ∈ l, p.1 ≠ k) : List.lookup k l = Option.none := by
  induction l with
  | nil => rfl
  | cons p t ih =>
    have hk : (k == p.1) = false :=
      beq_eq_false_iff_ne.mpr (Ne.symm (h p (List.mem_cons_self p t)))
    simp only [List.lookup, hk]
    exact ih (fun q hq => h q (List.mem_cons_of_mem p hq))

/-- C9: for every project root and environment, `check_security_tools`
returns a mapping whose key set is exactly the six fixed tool names
`bandit, safety, npm_audit, snyk, semgrep, gosec`, each mapped to a boolean,
regardless of which languages or infrastructure were detected. -/
theorem c9_security_tool_keys (e : Env) :
    keys (check_security_tools e) =
      ["bandit", "safety", "npm_audit", "snyk", "semgrep", "gosec"] := rfl

/-- C5: a root where `yarn.lock` exists yields package manager `yarn`
(in particular when the other two lockfiles are absent), and in general the
detected package manager is the first match of the fixed ordered lockfile
list `yarn.lock, pnpm-lock.yaml, package-lock.json`, with `unknown` when
none match. -/
theorem c5_node_package_manager_order (e : Env) :
    detect_node_package_manager e = spec_node_package_manager e ∧
    ("yarn.lock" ∈ e.rootFiles → detect_node_package_manager e = "yarn") := by
  constructor
  · by_cases h1 : e.rootFiles.contains "yarn.lock" <;>
    by_cases h2 : e.rootFiles.contains "pnpm-lock.yaml" <;>
    by_cases h3 : e.rootFiles.contains "package-lock.json" <;>
    simp_all [detect_node_package_manager, spec_node_package_manager,
      node_lock_order, List.findSome?]
  · intro h
    simp [detect_node_package_manager, h]

/-- Witness for C5: on a root whose only lockfile is `yarn.lock`, the
detected package manager is `yarn`. -/
theorem c5_witness : detect_node_package_manager env_yarn = "yarn" :=
  (c5_node_package_manager_order env_yarn).2 (by decide)

/-- C6: with an existing, parseable `package.json`, the detected framework is
the first match of the fixed priority order react, vue, angular (probed as
`@angular/core`), svelte over the merged dependency/devDependency keys; in
particular any manifest listing `react` — even together with `vue` — yields
`react`. -/
theorem c6_react_priority (e : Env) (d : PkgJson)
    (hp : "package.json" ∈ e.rootFiles)
    (hd : e.packageJsonParse = some d) :
    detect_js_framework e = framework_priority.findSome?
      (fun p => if (d.dependencies ++ d.devDependencies).contains p.1
                then some p.2 else Option.none) ∧
    (("react" ∈ d.dependencies ∨ "react" ∈ d.devDependencies) →
      detect_js_framework e = some "react") := by
  have hc : e.rootFiles.contains "package.json" = true := by simpa using hp
  constructor
  · by_cases h1 : (d.dependencies ++ d.devDependencies).contains "react" <;>
    by_cases h2 : (d.dependencies ++ d.devDependencies).contains "vue" <;>
    by_cases h3 : (d.dependencies ++ d.devDependencies).contains "@angular/core" <;>
    by_cases h4 : (d.dependencies ++ d.devDependencies).contains "svelte" <;>
    simp_all [detect_js_framework, framework_priority, List.findSome?]
  · intro hr
    rcases hr with h | h <;> simp [detect_js_framework, hp, hd, h]

/-- Witness for C6: a `package.json` listing both `react` and `vue` yields
framework `react`. -/
theorem c6_witness : detect_js_framework env_react_vue = some "react" :=
  (c6_react_priority env_react_vue
    { dependencies := ["react", "vue"], devDependencies := [] }
    (by decide) rfl).2 (Or.inl (by decide))

/-- C10 fails as stated: when `VIRTUAL_ENV` is set to the empty string (set,
but not to a non-empty value) and a `venv` directory exists, the detector
falls back to the directory probe even though the variable is not unset —
the result is the `venv` path, not the variable's value. -/
theorem c10_counterexample :
    env_venv_empty_var.virtualEnvVar = some "" ∧
    env_venv_empty_var.virtualEnvVar ≠ Option.none ∧
    detect_python_env env_venv_empty_var = some "/proj/venv" ∧
    detect_python_env env_venv_empty_var ≠ env_venv_empty_var.virtualEnvVar := by
  decide

/-- C10 amended: a `VIRTUAL_ENV` set to a non-empty value is returned
verbatim, regardless of the project's contents; the fallback directory probe
(`venv`, then `.venv`, then nothing) runs exactly when `VIRTUAL_ENV` is
unset or set to the empty string. -/
theorem c10_virtual_env_precedence (e : Env) (v : String) :
    (e.virtualEnvVar = some v → v ≠ "" → detect_python_env e = some v) ∧
    ((e.virtualEnvVar = Option.none ∨ e.virtualEnvVar = some "") →
      detect_python_env e = venv_dir_fallback e) := by
  constructor
  · intro h hv
    simp [detect_python_env, h, hv]
  · rintro (h | h) <;> simp [detect_python_env, h]

/-- Witness for C10's amended theorem: a non-empty `VIRTUAL_ENV` wins even
though no `venv`/`.venv` directory exists under the root. -/
theorem c10_witness : detect_python_env env_virtualenv_set = some "/envs/proj" :=
  (c10_virtual_env_precedence env_virtualenv_set "/envs/proj").1 rfl (by decide)

/-- C1 fails as stated: a root whose only Python signal is the manifest
`requirements.txt` (no `.py` files anywhere) yields no python entry at all —
the python probe tests only for `.py` files and never consults a manifest. -/
theorem c1_counterexample :
    "requirements.txt" ∈ env_req_only.rootFiles ∧
    env_req_only.pyFiles = [] ∧
    "python" ∉ keys (detect_languages env_req_only) := by decide

/-- C2 fails as stated: when the python version command raises (binary
missing), the python finding's `current_version` field is Python `None`
(serialized `null`), not the sentinel string `unknown`. -/
theorem c2_counterexample :
    env_all_langs.pythonVersionCmd = Option.none ∧
    (List.lookup "python" (detect_languages env_all_langs)).map
      (fun d => rget d "current_version") = some PyVal.none ∧
    PyVal.none ≠ PyVal.str "unknown" := by decide

/-- C3: evaluated at a root containing a `Dockerfile`, the infrastructure
section is non-empty and structured-mode `generate_report` raises
(`json.dumps` receives raw `pathlib.Path` objects in the `dockerfiles`
bucket, which are not JSON serializable), instead of producing the four-key
document the claim, and the code's own purpose, demand. -/
theorem c3_docker_json_raises :
    keys (detect_infrastructure env_docker) = ["docker"] ∧
    generate_report env_docker "json" = Option.none ∧
    generate_report env0 "json" ≠ Option.none := by decide

/-- C4 fails as stated: go and rust findings carry no `package_manager`
field (only python and nodejs findings do). -/
theorem c4_counterexample :
    (List.lookup "go" (detect_languages env_go_rust)).map
      (fun d => (keys d).contains "package_manager") = some false ∧
    (List.lookup "rust" (detect_languages env_go_rust)).map
      (fun d => (keys d).contains "package_manager") = some false := by decide

theorem mem_ite_list {c : Prop} [Decidable c] (a : String) (l : List String) :
    (a ∈ if c then l else []) ↔ c ∧ a ∈ l := by
  split <;> simp_all

theorem keys_detect_languages (e : Env) :
    keys (detect_languages e) =
      (if !e.pyFiles.isEmpty then ["python"] else [])
      ++ (if e.rootFiles.contains "package.json" || !e.tsFiles.isEmpty
            || !e.jsFiles.isEmpty then ["nodejs"] else [])
      ++ (if !e.goFiles.isEmpty || e.rootFiles.contains "go.mod" then ["go"] else [])
      ++ (if e.rootFiles.contains "Cargo.toml" || !e.rsFiles.isEmpty then ["rust"] else []) := by
  unfold detect_languages keys
  split <;> split <;> split <;> split <;> simp

/-- C1 amended: a nodejs entry exists iff `package.json` exists at the root
or `.ts`/`.js` files exist recursively; a go entry iff `.go` files or
`go.mod` exist; a rust entry iff `Cargo.toml` or `.rs` files exist; but a
python entry exists iff `.py` files exist — a python manifest alone (for
example `requirements.txt`) does not yield a python entry. -/
theorem c1_language_presence (e : Env) :
    ("python" ∈ keys (detect_languages e) ↔ e.pyFiles ≠ []) ∧
    ("nodejs" ∈ keys (detect_languages e) ↔
      ("package.json" ∈ e.rootFiles ∨ e.tsFiles ≠ [] ∨ e.jsFiles ≠ [])) ∧
    ("go" ∈ keys (detect_languages e) ↔ (e.goFiles ≠ [] ∨ "go.mod" ∈ e.rootFiles)) ∧
    ("rust" ∈ keys (detect_languages e) ↔ ("Cargo.toml" ∈ e.rootFiles ∨ e.rsFiles ≠ [])) := by
  rw [keys_detect_languages]
  refine ⟨?_, ?_, ?_, ?_⟩ <;> simp [mem_ite_list, List.mem_append, or_assoc]

/-- C2 amended: when every external command invocation raises (binary
missing), each detected language's `current_version` field is Python `None`
(serialized `null`) — not the string `unknown` — and every security tool's
availability is `false`; detection still completes (the embedded detectors
are total functions). -/
theorem c2_failed_commands_degrade (e : Env)
    (hpy : e.pythonVersionCmd = Option.none)
    (hnode : e.nodeVersionCmd = Option.none)
    (hgo : e.goVersionCmd = Option.none)
    (hrust : e.rustVersionCmd = Option.none)
    (hcmd : ∀ c, e.command_exists c = false)
    (h1 : e.pyFiles ≠ []) (h2 : e.tsFiles ≠ [])
    (h3 : e.goFiles ≠ []) (h4 : e.rsFiles ≠ []) :
    (List.lookup "python" (detect_languages e)).map (fun d => rget d "current_version")
      = some PyVal.none ∧
    (List.lookup "nodejs" (detect_languages e)).map (fun d => rget d "current_version")
      = some PyVal.none ∧
    (List.lookup "go" (detect_languages e)).map (fun d => rget d "current_version")
      = some PyVal.none ∧
    (List.lookup "rust" (detect_languages e)).map (fun d => rget d "current_version")
      = some PyVal.none ∧
    check_security_tools e =
      [("bandit", false), ("safety", false), ("npm_audit", false),
       ("snyk", false), ("semgrep", false), ("gosec", false)] := by
  have hb1 : e.pyFiles.isEmpty = false := by simpa using h1
  have hb2 : e.tsFiles.isEmpty = false := by simpa using h2
  have hb3 : e.goFiles.isEmpty = false := by simpa using h3
  have hb4 : e.rsFiles.isEmpty = false := by simpa using h4
  refine ⟨?_, ?_, ?_, ?_, ?_⟩ <;>
    simp [detect_languages, hb1, hb2, hb3, hb4, List.lookup, rget,
      get_python_version, get_node_version, get_go_version, get_rust_version,
      hpy, hnode, hgo, hrust, optStr, check_security_tools, hcmd]

/-- Witness for C2's amended theorem: with all four languages present and
every command failing, the python finding's version field is `None`. -/
theorem c2_witness :
    (List.lookup "python" (detect_languages env_all_langs)).map
      (fun d => rget d "current_version") = some PyVal.none :=
  (c2_failed_commands_degrade env_all_langs rfl rfl rfl rfl (fun _ => rfl)
    (by decide) (by decide) (by decide) (by decide)).1

/-- C4 amended: python and nodejs findings always carry a `package_manager`
field whose value is a package-manager name or `unknown`, but go and rust
findings carry no such field at all. -/
theorem c4_package_manager_fields (e : Env)
    (h1 : e.pyFiles ≠ []) (h2 : e.tsFiles ≠ [])
    (h3 : e.goFiles ≠ []) (h4 : e.rsFiles ≠ []) :
    (List.lookup "python" (detect_languages e)).map
      (fun d => (keys d).contains "package_manager") = some true ∧
    (List.lookup "nodejs" (detect_languages e)).map
      (fun d => (keys d).contains "package_manager") = some true ∧
    (List.lookup "go" (detect_languages e)).map
      (fun d => (keys d).contains "package_manager") = some false ∧
    (List.lookup "rust" (detect_languages e)).map
      (fun d => (keys d).contains "package_manager") = some false ∧
    detect_python_package_manager e ∈ ["pipenv", "poetry/pip", "pip", "unknown"] ∧
    detect_node_package_manager e ∈ ["yarn", "pnpm", "npm", "unknown"] := by
  have hb1 : e.pyFiles.isEmpty = false := by simpa using h1
  have hb2 : e.tsFiles.isEmpty = false := by simpa using h2
  have hb3 : e.goFiles.isEmpty = false := by simpa using h3
  have hb4 : e.rsFiles.isEmpty = false := by simpa using h4
  refine ⟨?_, ?_, ?_, ?_, ?_, ?_⟩
  · simp [detect_languages, hb1, List.lookup, keys]
  · simp [detect_languages, hb1, hb2, List.lookup, keys]
  · simp [detect_languages, hb1, hb2, hb3, List.lookup, keys]
  · simp [detect_languages, hb1, hb2, hb3, hb4, List.lookup, keys]
  · unfold detect_python_package_manager
    split_ifs <;> simp
  · unfold detect_node_package_manager
    split_ifs <;> simp

/-- Witness for C4's amended theorem: with all four languages present, the
go finding has no `package_manager` key. -/
theorem c4_witness :
    (List.lookup "go" (detect_languages env_all_langs)).map
      (fun d => (keys d).contains "package_manager") = some false :=
  (c4_package_manager_fields env_all_langs
    (by decide) (by decide) (by decide) (by decide)).2.2.1

theorem fst_mem_detect (e : Env) (p : String × Record) (hp : p ∈ detect_languages e) :
    p.1 = "python" ∨ p.1 = "nodejs" ∨ p.1 = "go" ∨ p.1 = "rust" := by
  have hm : p.1 ∈ keys (detect_languages e) := List.mem_map_of_mem Prod.fst hp
  rw [keys_detect_languages] at hm
  simp [mem_ite_list, List.mem_append] at hm
  tauto

theorem lookup_general_per (e : Env) :
    List.lookup "general"
      ((detect_languages e).filterMap (fun p =>
        let s := lang_suggestions p.1 p.2
        if s.isEmpty then Option.none else some (p.1, s))) = Option.none := by
  apply lookup_eq_none_of_keys_ne
  intro q hq
  rcases List.mem_filterMap.mp hq with ⟨p, hp, hfp⟩
  have hk := fst_mem_detect e p hp
  by_cases hs : (lang_suggestions p.1 p.2).isEmpty
  · simp [hs] at hfp
  · simp [hs] at hfp
    rcases hk with h | h | h | h <;> rw [← hfp] <;> simp [h]

/-- C8: the suggestion set has a `general` entry — consisting of the
containerization suggestion — exactly when more than one language was
detected and no docker signal was found. -/
theorem c8_general_docker_suggestion (e : Env) :
    List.lookup "general" (suggest_environment_isolation e) =
      (if "docker" ∉ keys (detect_infrastructure e) ∧ 1 < (detect_languages e).length
       then some [docker_suggestion_msg] else Option.none) := by
  unfold suggest_environment_isolation
  by_cases hc : ((!(keys (detect_infrastructure e)).contains "docker")
      && decide (1 < (detect_languages e).length)) = true
  · simp only [hc, if_true]
    rw [lookup_append, lookup_general_per]
    simp at hc
    rw [if_pos ⟨by simpa using hc.1, hc.2⟩]
    simp [List.lookup]
  · simp only [hc, if_false, Bool.false_eq_true]
    rw [lookup_general_per]
    simp at hc
    rw [if_neg]
    intro hand
    have := hc (by simpa using hand.1)
    omega

/-- C7: when no language and no infrastructure signal is detected, the
suggestion set is empty and the console report contains no suggestions
section (its header line never appears). -/
theorem c7_no_suggestions (e : Env)
    (hL : detect_languages e = []) (hI : detect_infrastructure e = []) :
    suggest_environment_isolation e = [] ∧
    "\n💡 ENVIRONMENT ISOLATION SUGGESTIONS:" ∉ console_lines e := by
  have hS : suggest_environment_isolation e = [] := by
    unfold suggest_environment_isolation
    simp [hL, hI, keys]
  refine ⟨hS, ?_⟩
  unfold console_lines
  simp only [hL, hI, hS, List.foldr_nil, List.isEmpty_nil, Bool.not_true,
    Bool.false_eq_true, if_false, List.append_nil, List.nil_append]
  cases hb1 : e.command_exists "bandit" <;>
  cases hb2 : e.command_exists "safety" <;>
  cases hb3 : (e.command_exists "npm" && has_npm_audit e) <;>
  cases hb4 : e.command_exists "snyk" <;>
  cases hb5 : e.command_exists "semgrep" <;>
  cases hb6 : e.command_exists "gosec" <;>
  simp only [check_security_tools, hb1, hb2, hb3, hb4, hb5, hb6,
    render_security_tool, List.map_cons, List.map_nil] <;>
  decide

/-- Witness for C7: the bare project detects nothing and yields no
suggestions. -/
theorem c7_witness : suggest_environment_isolation env0 = [] :=
  (c7_no_suggestions env0 rfl rfl).1

end EnvDetect
